import Mathlib

/-!
# Shallow embedding of `financial_analyzer.py` (Profit-Quality-Accrual-Analysis)

Machine floats are idealised as exact rationals (`ℚ`).  Python's
`statistics.mean`, which raises `StatisticsError` on an empty list, is
modelled as an `Option`-valued function, and every Analyzer function that
calls it is `Option`-valued, `none` standing for a raised exception.
Python's `round` (banker's rounding to `n` decimal places) is modelled
exactly on `ℚ` by `pyRound`.  The square root inside `statistics.stdev`
is the one operation that has no exact rational counterpart; it is taken
as an explicit function parameter `sqrt : ℚ → ℚ`, and every statement
proved below holds for all such parameters.
-/

/-- Python's `round` to an integer: nearest integer, ties to even. -/
def pyRoundInt (x : ℚ) : ℤ :=
  let f : ℤ := ⌊x⌋
  let r : ℚ := x - f
  if r < 1/2 then f
  else if 1/2 < r then f + 1
  else if f % 2 = 0 then f else f + 1

/-- Python's `round(x, n)` for `n` decimal places. -/
def pyRound (x : ℚ) (n : ℕ) : ℚ := (pyRoundInt (x * 10 ^ n) : ℚ) / 10 ^ n

/-- `statistics.mean`: raises (returns `none`) on an empty list. -/
def mean (xs : List ℚ) : Option ℚ :=
  if xs = [] then none else some (xs.sum / xs.length)

/-- The square of the sample standard deviation computed by
`statistics.stdev`: sum of squared deviations over `n - 1`. -/
def sampleVariance (xs : List ℚ) : ℚ :=
  let m : ℚ := xs.sum / xs.length
  (xs.map (fun x => (x - m) ^ 2)).sum / ((xs.length : ℚ) - 1)

/-- `statistics.stdev` in a context already guarded by `len > 1`:
the square root of the sample variance. -/
def stdev (sqrt : ℚ → ℚ) (xs : List ℚ) : ℚ := sqrt (sampleVariance xs)

/-- Result dict of `cumulative_pat_vs_cfo`. -/
structure PatCfoResult where
  value : ℚ
  years : ℕ
  warning : Option String
deriving DecidableEq, Repr

/-- Result dict of `cfo_ebitda_consistency`. -/
structure CfoEbitdaResult where
  avg_cfo : ℚ
  avg_ebitda : ℚ
  ratio : ℚ
deriving DecidableEq, Repr

/-- Result dict of `accrual_quality`. -/
structure AccrualResult where
  avg_pat : ℚ
  avg_cfo : ℚ
  avg_accruals : ℚ
  accrual_ratio : ℚ
deriving DecidableEq, Repr

/-- Result dict of `cash_earning_rate`. -/
structure CashEarnResult where
  cash_balance : ℚ
  risk_free_rate : ℚ
  expected_earnings : ℚ
  actual_earnings : Option ℚ
  earning_rate : Option ℚ
  warning : Option String
deriving DecidableEq, Repr

/-- Result dict of `fcf_quality`. -/
structure FcfResult where
  avg_fcf : ℚ
  volatility_cv : ℚ
  negative_years : ℕ
  total_years : ℕ
  avg_cfo : ℚ
  avg_capex : ℚ
deriving DecidableEq, Repr

/-- `FinancialAnalyzer.cumulative_pat_vs_cfo` (`financial_analyzer.py`
lines 8-32).  The `rolling_window` parameter is accepted and, as in the
source, never used. -/
def cumulative_pat_vs_cfo (pat_list cfo_list : List ℚ) (rolling_window : ℕ) :
    PatCfoResult :=
  if pat_list.length < 1 ∨ cfo_list.length < 1 then
    { value := 0, years := 0, warning := some "Insufficient data" }
  else
    let years_available := min pat_list.length cfo_list.length
    let cumulative_pat := pat_list.sum
    let cumulative_cfo := cfo_list.sum
    let ratio := if cumulative_pat ≠ 0 then cumulative_cfo / cumulative_pat else 0
    { value := pyRound ratio 3
      years := years_available
      warning := if years_available < 10 then some "Only 3 years available" else none }

/-- `FinancialAnalyzer.cfo_ebitda_consistency` (lines 35-62).  The
`threshold` parameter is accepted and, as in the source, never used. -/
def cfo_ebitda_consistency (cfo_list ebitda_list : List ℚ) (threshold : ℚ) :
    Option CfoEbitdaResult :=
  if cfo_list.length < 1 ∨ ebitda_list.length < 1 then
    some { avg_cfo := 0, avg_ebitda := 0, ratio := 0 }
  else
    (mean cfo_list).bind fun avg_cfo =>
    (mean ebitda_list).bind fun avg_ebitda =>
    let ratio := if avg_ebitda ≠ 0 then avg_cfo / avg_ebitda else 0
    some { avg_cfo := pyRound avg_cfo 2
           avg_ebitda := pyRound avg_ebitda 2
           ratio := pyRound ratio 3 }

/-- `FinancialAnalyzer.accrual_quality` (lines 64-96).  Note the source's
list comprehension `[abs(acc) / avg_pat for acc in accruals if avg_pat != 0]`:
when `avg_pat == 0` it filters out every element, so `statistics.mean` is
applied to an empty list (modelled by `mean [] = none`). -/
def accrual_quality (pat_list cfo_list : List ℚ) : Option AccrualResult :=
  if pat_list.length < 1 ∨ cfo_list.length < 1 then
    some { avg_pat := 0, avg_cfo := 0, avg_accruals := 0, accrual_ratio := 0 }
  else
    (mean pat_list).bind fun avg_pat =>
    (mean cfo_list).bind fun avg_cfo =>
    let accruals := (pat_list.zip cfo_list).map (fun p => p.1 - p.2)
    (mean accruals).bind fun avg_accruals =>
    (mean (if avg_pat ≠ 0 then accruals.map (fun acc => |acc| / avg_pat) else [])).bind
      fun accrual_ratio =>
    some { avg_pat := pyRound avg_pat 2
           avg_cfo := pyRound avg_cfo 2
           avg_accruals := pyRound avg_accruals 2
           accrual_ratio := pyRound accrual_ratio 4 }

/-- `FinancialAnalyzer.depreciation_volatility` (lines 98-123). -/
def depreciation_volatility (sqrt : ℚ → ℚ)
    (depreciation_list sales_list : List ℚ) : Option ℚ :=
  if depreciation_list.length < 2 ∨ sales_list.length < 2 then
    some 0
  else
    let depreciation_ratios := (depreciation_list.zip sales_list).map
      (fun p => if p.2 ≠ 0 then p.1 / p.2 * 100 else 0)
    (mean depreciation_ratios).bind fun avg_ratio =>
    let volatility :=
      if 1 < depreciation_ratios.length then stdev sqrt depreciation_ratios else 0
    let cv := if avg_ratio ≠ 0 then volatility / avg_ratio * 100 else 0
    some (pyRound cv 2)

/-- `FinancialAnalyzer.cash_earning_rate` (lines 125-162). -/
def cash_earning_rate (cash_balance risk_free_rate : ℚ)
    (annual_earnings : Option ℚ) : CashEarnResult :=
  let expected_annual_earnings := cash_balance * risk_free_rate / 100
  match annual_earnings with
  | none =>
      { cash_balance := pyRound cash_balance 2
        risk_free_rate := risk_free_rate
        expected_earnings := pyRound expected_annual_earnings 2
        actual_earnings := none
        earning_rate := none
        warning := some "No interest income data provided" }
  | some earnings =>
      let actual_earning_rate :=
        if cash_balance ≠ 0 then earnings / cash_balance * 100 else 0
      { cash_balance := pyRound cash_balance 2
        risk_free_rate := risk_free_rate
        expected_earnings := pyRound expected_annual_earnings 2
        actual_earnings := some (pyRound earnings 2)
        earning_rate := some (pyRound actual_earning_rate 3)
        warning := none }

/-- `FinancialAnalyzer.fcf_quality` (lines 164-208).  The
`depreciation_list` parameter is accepted and, as the source notes, never
used.  When `capex_list` is empty the zipped `fcf_list` is empty and
`statistics.mean` raises, and so does `statistics.mean(capex_list)`;
the first raise is the one on `fcf_list`, reflected by the bind order. -/
def fcf_quality (sqrt : ℚ → ℚ)
    (cfo_list depreciation_list capex_list : List ℚ) : Option FcfResult :=
  if cfo_list.length < 2 then
    some { avg_fcf := 0, volatility_cv := 0, negative_years := 0
           total_years := 0, avg_cfo := 0, avg_capex := 0 }
  else
    let fcf_list := (cfo_list.zip capex_list).map (fun p => p.1 - p.2)
    (mean fcf_list).bind fun avg_fcf =>
    (mean cfo_list).bind fun avg_cfo =>
    (mean capex_list).bind fun avg_capex =>
    let fcf_volatility := if 1 < fcf_list.length then stdev sqrt fcf_list else 0
    let cv := if avg_fcf ≠ 0 then fcf_volatility / avg_fcf * 100 else 0
    let negative_years := (fcf_list.filter (fun fcf => fcf < 0)).length
    some { avg_fcf := pyRound avg_fcf 2
           volatility_cv := pyRound cv 2
           negative_years := negative_years
           total_years := fcf_list.length
           avg_cfo := pyRound avg_cfo 2
           avg_capex := pyRound avg_capex 2 }

/-- The behaviour of `cumulative_pat_vs_cfo` as worded by the spec (§4.1.1):
empty input short-circuits; otherwise `years = min` of the lengths, the value
is `round(sum(cfo)/sum(pat), 3)` with `0` when `sum(pat) == 0`, and the
warning appears exactly when fewer than 10 years are available.  Stated as a
separate definition so the implementation can be proved to refine it. -/
def cumulative_pat_vs_cfo_specModel (pat cfo : List ℚ) : PatCfoResult :=
  if pat = [] ∨ cfo = [] then
    { value := 0, years := 0, warning := some "Insufficient data" }
  else
    { value := if pat.sum = 0 then 0 else pyRound (cfo.sum / pat.sum) 3
      years := min pat.length cfo.length
      warning :=
        if min pat.length cfo.length < 10 then some "Only 3 years available" else none }

/-- Modelled from the spec: the Yes/No-flag ("simple") variant of
`fcf_quality` described in §4.1.6 and §9 of the spec is not present under
`src/` (only the detailed-metrics variant is).  Per the spec it shares the
detailed variant's core statistics and flags "lack of FCF generation"
(string "Yes") when any of `negative_years/len(fcf) > 0.3`,
`volatility_cv > 50`, `avg_fcf < 0` holds, else "No". -/
def fcf_quality_flag (sqrt : ℚ → ℚ)
    (cfo_list depreciation_list capex_list : List ℚ) : Option String :=
  (fcf_quality sqrt cfo_list depreciation_list capex_list).map fun r =>
    if (r.negative_years : ℚ) / (r.total_years : ℚ) > 3/10 ∨
        r.volatility_cv > 50 ∨ r.avg_fcf < 0
    then "Yes" else "No"

/-! ## Helper lemmas -/

theorem mean_eq_some {xs : List ℚ} (h : xs ≠ []) :
    mean xs = some (xs.sum / xs.length) := if_neg h

theorem mean_nil : mean [] = none := rfl

theorem pyRound_zero (n : ℕ) : pyRound 0 n = 0 := by
  unfold pyRound pyRoundInt
  norm_num

theorem zip_self_sub (l : List ℚ) :
    (l.zip l).map (fun p => p.1 - p.2) = l.map (fun _ => (0:ℚ)) := by
  induction l with
  | nil => rfl
  | cons a t ih => simp [ih]

theorem zip_zero_sub (cfo capex : List ℚ) (hlen : capex.length = cfo.length)
    (h0 : ∀ x ∈ capex, x = 0) :
    (cfo.zip capex).map (fun p => p.1 - p.2) = cfo := by
  induction cfo generalizing capex with
  | nil => simp
  | cons a t ih =>
    cases capex with
    | nil => simp at hlen
    | cons b u =>
      have hb : b = 0 := h0 b (List.mem_cons_self b u)
      have hu : ∀ x ∈ u, x = 0 := fun x hx => h0 x (List.mem_cons_of_mem b hx)
      simp only [List.zip_cons_cons, List.map_cons, hb, sub_zero]
      exact congrArg (List.cons a) (ih u (by simpa using hlen) hu)

theorem mean_map_zero {l : List ℚ} (h : l ≠ []) :
    mean (l.map fun _ => (0:ℚ)) = some 0 := by
  rw [mean_eq_some (by simpa using h)]
  simp

theorem ratios_scale (c : ℚ) (hc : c ≠ 0) (d s : List ℚ) :
    ((d.map (fun x => c * x)).zip (s.map (fun x => c * x))).map
        (fun p => if p.2 ≠ 0 then p.1 / p.2 * 100 else 0)
      = (d.zip s).map (fun p => if p.2 ≠ 0 then p.1 / p.2 * 100 else 0) := by
  induction d generalizing s with
  | nil => simp
  | cons a t ih =>
    cases s with
    | nil => simp
    | cons b u =>
      simp only [List.map_cons, List.zip_cons_cons]
      refine congrArg₂ List.cons ?_ (ih u)
      by_cases hb : b = 0
      · simp [hb]
      · have hcb : c * b ≠ 0 := mul_ne_zero hc hb
        simp [hb, hcb, mul_div_mul_left a b hc]

/-! ## Claims -/

/-- C1 counterexample: two of the six Analyzer functions do raise.
`accrual_quality([1,-1], [0,0])` has non-empty inputs with `mean(pat) == 0`,
so the guarded list comprehension is empty and `statistics.mean` raises
(`none`); `fcf_quality([1,2], [], [])` has `len(cfo) >= 2` and empty capex,
so the zipped FCF list is empty and `statistics.mean` raises (`none`). -/
theorem c1_counterexample :
    accrual_quality [1, -1] [0, 0] = none ∧
    fcf_quality (fun q => q) [1, 2] [] [] = none := by
  constructor
  · simp [accrual_quality, mean]
  · simp [fcf_quality, mean]

/-- C1 (amended): `cfo_ebitda_consistency` and `depreciation_volatility`
always return a result (`cumulative_pat_vs_cfo` and `cash_earning_rate` are
total by construction: they perform no partial operation), while
`accrual_quality` returns a result exactly when an input is empty or
`sum(pat) ≠ 0`, and `fcf_quality` returns a result exactly when
`len(cfo) < 2` or capex is non-empty. -/
theorem c1_totality_characterization :
    (∀ cfo ebitda threshold : _,
      (cfo_ebitda_consistency cfo ebitda threshold).isSome = true) ∧
    (∀ (sqrt : ℚ → ℚ) (dep sales : List ℚ),
      (depreciation_volatility sqrt dep sales).isSome = true) ∧
    (∀ pat cfo : List ℚ,
      (accrual_quality pat cfo).isSome = true ↔
        (pat.length < 1 ∨ cfo.length < 1 ∨ pat.sum ≠ 0)) ∧
    (∀ (sqrt : ℚ → ℚ) (cfo dep capex : List ℚ),
      (fcf_quality sqrt cfo dep capex).isSome = true ↔
        (cfo.length < 2 ∨ capex ≠ [])) := by
  refine ⟨?_, ?_, ?_, ?_⟩
  · intro cfo ebitda threshold
    unfold cfo_ebitda_consistency
    split
    · rfl
    · rename_i hg
      push_neg at hg
      have h1 : cfo ≠ [] := by
        rw [← List.length_pos]; omega
      have h2 : ebitda ≠ [] := by
        rw [← List.length_pos]; omega
      rw [mean_eq_some h1, mean_eq_some h2]
      rfl
  · intro sqrt dep sales
    unfold depreciation_volatility
    split
    · rfl
    · rename_i hg
      push_neg at hg
      have hz : (dep.zip sales).map
          (fun p => if p.2 ≠ 0 then p.1 / p.2 * 100 else 0) ≠ [] := by
        rw [← List.length_pos]
        simp only [List.length_map, List.length_zip]
        omega
      simp only [mean_eq_some hz, Option.some_bind, Option.isSome_some]
  · intro pat cfo
    unfold accrual_quality
    split
    · rename_i hg
      simp only [Option.isSome_some, true_iff]
      rcases hg with h | h
      · exact Or.inl h
      · exact Or.inr (Or.inl h)
    · rename_i hg
      push_neg at hg
      have h1 : pat ≠ [] := by rw [← List.length_pos]; omega
      have h2 : cfo ≠ [] := by rw [← List.length_pos]; omega
      have hz : (pat.zip cfo).map (fun p => p.1 - p.2) ≠ [] := by
        rw [← List.length_pos]
        simp only [List.length_map, List.length_zip]
        omega
      have hlen0 : pat.length ≠ 0 := by simpa [List.length_eq_zero] using h1
      have hlen : (pat.length : ℚ) ≠ 0 := Nat.cast_ne_zero.mpr hlen0
      simp only [mean_eq_some h1, mean_eq_some h2, Option.some_bind,
        mean_eq_some hz]
      by_cases hs : pat.sum = 0
      · have hzero : pat.sum / (pat.length : ℚ) = 0 := by rw [hs, zero_div]
        rw [hzero, if_neg (by simp), mean_nil]
        simp only [Option.none_bind, Option.isSome_none, Bool.false_eq_true,
          false_iff]
        rintro (h | h | h)
        · omega
        · omega
        · exact h hs
      · have hav : pat.sum / (pat.length : ℚ) ≠ 0 := div_ne_zero hs hlen
        have hz2 : ((pat.zip cfo).map (fun p => p.1 - p.2)).map
            (fun acc => |acc| / (pat.sum / (pat.length : ℚ))) ≠ [] := by
          simpa using hz
        rw [if_pos hav, mean_eq_some hz2]
        simp only [Option.some_bind, Option.isSome_some, true_iff]
        exact Or.inr (Or.inr hs)
  · intro sqrt cfo dep capex
    unfold fcf_quality
    split
    · rename_i hg
      simp [hg]
    · rename_i hg
      push_neg at hg
      have hcfo : cfo ≠ [] := by rw [← List.length_pos]; omega
      by_cases hcap : capex = []
      · subst hcap
        simp only [List.zip_nil_right, List.map_nil, mean_nil,
          Option.none_bind, Option.isSome_none, Bool.false_eq_true, false_iff]
        rintro (h | h)
        · omega
        · exact h rfl
      · have hz : (cfo.zip capex).map (fun p => p.1 - p.2) ≠ [] := by
          rw [← List.length_pos]
          simp only [List.length_map, List.length_zip]
          have : 0 < capex.length := List.length_pos.mpr hcap
          omega
        simp only [mean_eq_some hz, mean_eq_some hcfo, mean_eq_some hcap,
          Option.some_bind, Option.isSome_some, true_iff]
        exact Or.inr hcap

/-- C2 counterexample: on the mock-data series the cumulative CFO sums to
1242 (not 1220 as the claim computes), so the returned value is
`round(1242/1270, 3) = 0.978`, not `0.961`. -/
theorem c2_counterexample :
    ([95, 105, 118, 112, 122, 128, 138, 133, 143, 148] : List ℚ).sum = 1242 ∧
    (cumulative_pat_vs_cfo [100, 110, 120, 115, 125, 130, 140, 135, 145, 150]
        [95, 105, 118, 112, 122, 128, 138, 133, 143, 148] 3).value = 978/1000 ∧
    (978/1000 : ℚ) ≠ 961/1000 := by
  refine ⟨by norm_num, ?_, by norm_num⟩
  simp only [cumulative_pat_vs_cfo]
  norm_num [pyRound, pyRoundInt]

/-- C2 (amended): for `pat = [100,110,120,115,125,130,140,135,145,150]` and
`cfo = [95,105,118,112,122,128,138,133,143,148]`, `cumulative_pat_vs_cfo`
returns `value == round(sum(cfo)/sum(pat), 3) == round(1242/1270, 3) == 0.978`,
`years == 10` and `warning is None`. -/
theorem c2_mock_data_scenario :
    (cumulative_pat_vs_cfo [100, 110, 120, 115, 125, 130, 140, 135, 145, 150]
        [95, 105, 118, 112, 122, 128, 138, 133, 143, 148] 3).value
      = pyRound (([95, 105, 118, 112, 122, 128, 138, 133, 143, 148] : List ℚ).sum
          / ([100, 110, 120, 115, 125, 130, 140, 135, 145, 150] : List ℚ).sum) 3 ∧
    (cumulative_pat_vs_cfo [100, 110, 120, 115, 125, 130, 140, 135, 145, 150]
        [95, 105, 118, 112, 122, 128, 138, 133, 143, 148] 3).value = 978/1000 ∧
    (cumulative_pat_vs_cfo [100, 110, 120, 115, 125, 130, 140, 135, 145, 150]
        [95, 105, 118, 112, 122, 128, 138, 133, 143, 148] 3).years = 10 ∧
    (cumulative_pat_vs_cfo [100, 110, 120, 115, 125, 130, 140, 135, 145, 150]
        [95, 105, 118, 112, 122, 128, 138, 133, 143, 148] 3).warning = none := by
  refine ⟨?_, ?_, by simp [cumulative_pat_vs_cfo], by simp [cumulative_pat_vs_cfo]⟩
  · simp only [cumulative_pat_vs_cfo]
    norm_num
  · simp only [cumulative_pat_vs_cfo]
    norm_num [pyRound, pyRoundInt]

/-- C3: `cumulative_pat_vs_cfo` agrees with the spec-worded description for
every input: empty input gives the "Insufficient data" zero result; otherwise
`years = min(len(pat), len(cfo))`, `value = round(sum(cfo)/sum(pat), 3)` with
`0` when `sum(pat) == 0`, and the "Only 3 years available" warning exactly
when fewer than 10 years are available. -/
theorem c3_cumulative_pat_vs_cfo_meets_spec (pat cfo : List ℚ) (w : ℕ) :
    cumulative_pat_vs_cfo pat cfo w = cumulative_pat_vs_cfo_specModel pat cfo := by
  unfold cumulative_pat_vs_cfo cumulative_pat_vs_cfo_specModel
  have hiff : (pat.length < 1 ∨ cfo.length < 1) ↔ (pat = [] ∨ cfo = []) := by
    simp [Nat.lt_one_iff, List.length_eq_zero]
  by_cases hg : pat = [] ∨ cfo = []
  · rw [if_pos (hiff.mpr hg), if_pos hg]
  · rw [if_neg (fun h => hg (hiff.mp h)), if_neg hg]
    by_cases hs : pat.sum = 0
    · simp [hs, pyRound_zero]
    · simp [hs]

/-- C4 counterexample: for the non-empty, elementwise-equal pair
`pat = cfo = [1, -1]` the mean of `pat` is zero, the guarded comprehension is
empty, and `accrual_quality` raises (returns no result) instead of returning
`avg_accruals == 0` and `accrual_ratio == 0`. -/
theorem c4_counterexample : accrual_quality [1, -1] [1, -1] = none := by
  simp [accrual_quality, mean]

/-- C4 (amended): for every non-empty series `pat` with `sum(pat) ≠ 0`
(equivalently `mean(pat) ≠ 0`), `accrual_quality(pat, pat)` returns a result
with `avg_accruals == 0` and `accrual_ratio == 0`. -/
theorem c4_equal_series_zero_accruals (pat : List ℚ) (h1 : pat ≠ [])
    (h2 : pat.sum ≠ 0) :
    ∃ r, accrual_quality pat pat = some r ∧
      r.avg_accruals = 0 ∧ r.accrual_ratio = 0 := by
  have hlen0 : pat.length ≠ 0 := by simpa [List.length_eq_zero] using h1
  have hlen : (pat.length : ℚ) ≠ 0 := Nat.cast_ne_zero.mpr hlen0
  have hav : pat.sum / (pat.length : ℚ) ≠ 0 := div_ne_zero h2 hlen
  have hmap : pat.map (fun _ => (0:ℚ)) ≠ [] := by simpa using h1
  have hratios : (pat.map (fun _ => (0:ℚ))).map
      (fun acc => |acc| / (pat.sum / (pat.length : ℚ)))
      = pat.map (fun _ => (0:ℚ)) := by
    simp [List.map_map, Function.comp]
  unfold accrual_quality
  rw [if_neg (by simpa [Nat.lt_one_iff] using hlen0)]
  simp only [mean_eq_some h1, Option.some_bind, zip_self_sub,
    mean_map_zero h1, if_pos hav, hratios]
  exact ⟨_, rfl, pyRound_zero 2, pyRound_zero 4⟩

/-- C4 witness: the amended statement at `pat = [1, 2]`. -/
theorem c4_witness :
    (([1, 2] : List ℚ) ≠ []) ∧ (([1, 2] : List ℚ).sum ≠ 0) ∧
    ∃ r, accrual_quality [1, 2] [1, 2] = some r ∧
      r.avg_accruals = 0 ∧ r.accrual_ratio = 0 :=
  ⟨by simp, by norm_num, c4_equal_series_zero_accruals [1, 2] (by simp) (by norm_num)⟩

/-- C5 counterexample: with `cfo = [0.001, 0.001]` and an all-zero capex of
equal length, the returned `avg_fcf` is `round(mean(cfo), 2) = 0.0`, which is
not the arithmetic mean `0.001` of `cfo`. -/
theorem c5_counterexample :
    (fcf_quality (fun q => q) [1/1000, 1/1000] [] [0, 0]).map FcfResult.avg_fcf
      = some 0 ∧
    mean [1/1000, 1/1000] = some (1/1000) ∧ ((0 : ℚ) ≠ 1/1000) := by
  have m1 : mean [(1:ℚ)/1000, 1/1000] = some (1/1000) := by
    rw [mean_eq_some (by simp)]
    norm_num
  have m2 : mean [(0:ℚ), 0] = some 0 := by
    rw [mean_eq_some (by simp)]
    norm_num
  refine ⟨?_, m1, by norm_num⟩
  unfold fcf_quality
  rw [if_neg (by simp)]
  simp only [List.zip_cons_cons, List.zip_nil_right, List.map_cons,
    List.map_nil, sub_zero, m1, m2, Option.some_bind, Option.map_some']
  norm_num [pyRound, pyRoundInt]

/-- C5 (amended): for all series `cfo`, `capex` of equal length ≥ 2 with
every capex element zero (and any depreciation series), `fcf_quality`
returns a result whose `avg_fcf` is the arithmetic mean of `cfo` rounded to
2 decimal places, and whose `avg_capex` is 0. -/
theorem c5_zero_capex (sqrt : ℚ → ℚ) (cfo depreciation capex : List ℚ)
    (hlen : capex.length = cfo.length) (h2 : 2 ≤ cfo.length)
    (h0 : ∀ x ∈ capex, x = 0) :
    ∃ r, fcf_quality sqrt cfo depreciation capex = some r ∧
      r.avg_fcf = pyRound (cfo.sum / (cfo.length : ℚ)) 2 ∧ r.avg_capex = 0 := by
  have hcfo : cfo ≠ [] := by rw [← List.length_pos]; omega
  have hcap : capex ≠ [] := by
    rw [← List.length_pos]; omega
  have hsum0 : capex.sum = 0 := List.sum_eq_zero h0
  unfold fcf_quality
  rw [if_neg (by omega)]
  simp only [zip_zero_sub cfo capex hlen h0, mean_eq_some hcfo,
    mean_eq_some hcap, Option.some_bind]
  refine ⟨_, rfl, rfl, ?_⟩
  simp [hsum0, pyRound_zero]

/-- C5 witness: the amended statement at `cfo = [1, 2]`, `capex = [0, 0]`. -/
theorem c5_witness :
    (([0, 0] : List ℚ).length = ([1, 2] : List ℚ).length) ∧
    (2 ≤ ([1, 2] : List ℚ).length) ∧ (∀ x ∈ ([0, 0] : List ℚ), x = 0) ∧
    ∃ r, fcf_quality (fun q => q) [1, 2] [] [0, 0] = some r ∧
      r.avg_fcf = pyRound (([1, 2] : List ℚ).sum / (([1, 2] : List ℚ).length : ℚ)) 2 ∧
      r.avg_capex = 0 :=
  ⟨rfl, by simp, by simp,
    c5_zero_capex (fun q => q) [1, 2] [] [0, 0] rfl (by simp) (by simp)⟩

/-- C6: `depreciation_volatility` is invariant under scaling both series by
the same nonzero constant: every per-year depreciation-to-sales ratio is
unchanged, hence so is the whole computation. -/
theorem c6_scale_invariance (sqrt : ℚ → ℚ) (depreciation sales : List ℚ)
    (c : ℚ) (hc : c ≠ 0) (h1 : 2 ≤ depreciation.length)
    (h2 : 2 ≤ sales.length) :
    depreciation_volatility sqrt (depreciation.map (fun x => c * x))
        (sales.map (fun x => c * x))
      = depreciation_volatility sqrt depreciation sales := by
  unfold depreciation_volatility
  simp only [List.length_map, ratios_scale c hc]

/-- C6 witness: scaling `[1, 2]` and `[3, 4]` by 2. -/
theorem c6_witness :
    ((2 : ℚ) ≠ 0) ∧ (2 ≤ ([1, 2] : List ℚ).length) ∧
    (2 ≤ ([3, 4] : List ℚ).length) ∧
    depreciation_volatility (fun q => q)
        (([1, 2] : List ℚ).map (fun x => 2 * x))
        (([3, 4] : List ℚ).map (fun x => 2 * x))
      = depreciation_volatility (fun q => q) [1, 2] [3, 4] :=
  ⟨by norm_num, by simp, by simp,
    c6_scale_invariance (fun q => q) [1, 2] [3, 4] 2 (by norm_num)
      (by simp) (by simp)⟩

/-- C7: with `annual_earnings` missing, `cash_earning_rate` returns
`actual_earnings = None`, `earning_rate = None` and the missing-interest-income
warning, for every cash balance and rate; with it present, `earning_rate` is
`round(annual_earnings / cash_balance * 100, 3)` (0 when the balance is 0),
so `cash_earning_rate(1000, 5.0, 50.0)` yields `earning_rate == 5.0` and no
warning. -/
theorem c7_cash_earning_rate_optional_income :
    (∀ cash rfr : ℚ,
      (cash_earning_rate cash rfr none).actual_earnings = none ∧
      (cash_earning_rate cash rfr none).earning_rate = none ∧
      (cash_earning_rate cash rfr none).warning
        = some "No interest income data provided") ∧
    (∀ cash rfr e : ℚ,
      (cash_earning_rate cash rfr (some e)).earning_rate
        = some (pyRound (if cash = 0 then 0 else e / cash * 100) 3)) ∧
    (cash_earning_rate 1000 5 (some 50)).earning_rate = some 5 ∧
    (cash_earning_rate 1000 5 (some 50)).warning = none := by
  refine ⟨fun cash rfr => ⟨rfl, rfl, rfl⟩, fun cash rfr e => ?_, ?_, rfl⟩
  · by_cases h : cash = 0
    · simp [cash_earning_rate, h]
    · simp [cash_earning_rate, h]
  · norm_num [cash_earning_rate, pyRound, pyRoundInt]

/-- C8: the (spec-modelled) Yes/No-flag variant of `fcf_quality` flags
"lack of FCF generation" exactly when `negative_years / total_years > 0.3`,
or `volatility_cv > 50`, or `avg_fcf < 0`, where the thresholds are compared
against the detailed-metrics result of `fcf_quality`. -/
theorem c8_fcf_flag_iff (sqrt : ℚ → ℚ) (cfo depreciation capex : List ℚ)
    (r : FcfResult) (h : fcf_quality sqrt cfo depreciation capex = some r) :
    (fcf_quality_flag sqrt cfo depreciation capex = some "Yes" ↔
      ((r.negative_years : ℚ) / (r.total_years : ℚ) > 3/10 ∨
        r.volatility_cv > 50 ∨ r.avg_fcf < 0)) := by
  unfold fcf_quality_flag
  rw [h]
  by_cases hcond : (r.negative_years : ℚ) / (r.total_years : ℚ) > 3/10 ∨
      r.volatility_cv > 50 ∨ r.avg_fcf < 0
  · simp [hcond]
  · simp [hcond]

/-- C8 witness: the flag variant and the detailed variant agree at
`cfo = [1, 2]`, `capex = [0, 0]` (no threshold breached, flag "No"). -/
theorem c8_witness :
    fcf_quality_flag (fun q => q) [1, 2] [] [0, 0] = some "Yes" ↔
      ((((0 : ℕ) : ℚ)) / (((2 : ℕ) : ℚ)) > 3/10 ∨ (3333/100 : ℚ) > 50 ∨
        (3/2 : ℚ) < 0) :=
  c8_fcf_flag_iff (fun q => q) [1, 2] [] [0, 0]
    { avg_fcf := 3/2, volatility_cv := 3333/100, negative_years := 0,
      total_years := 2, avg_cfo := 3/2, avg_capex := 0 }
    (by
      have m1 : mean [(1:ℚ), 2] = some (3/2) := by
        rw [mean_eq_some (by simp)]
        norm_num
      have m2 : mean [(0:ℚ), 0] = some 0 := by
        rw [mean_eq_some (by simp)]
        norm_num
      unfold fcf_quality
      rw [if_neg (by simp)]
      simp only [List.zip_cons_cons, List.zip_nil_right, List.map_cons,
        List.map_nil, sub_zero, m1, m2, Option.some_bind]
      norm_num [stdev, sampleVariance, pyRound, pyRoundInt,
        List.filter_cons, List.filter_nil, decide_eq_true_eq])

/-- C9: `cfo_ebitda_consistency` never reads its `threshold` argument, so its
result is the same for any two thresholds. -/
theorem c9_threshold_independent (cfo ebitda : List ℚ) (t1 t2 : ℚ) :
    cfo_ebitda_consistency cfo ebitda t1 = cfo_ebitda_consistency cfo ebitda t2 :=
  rfl

/-- C10: `cumulative_pat_vs_cfo` never reads its `rolling_window` argument,
so its result is the same for any two window values. -/
theorem c10_rolling_window_independent (pat cfo : List ℚ) (w1 w2 : ℕ) :
    cumulative_pat_vs_cfo pat cfo w1 = cumulative_pat_vs_cfo pat cfo w2 :=
  rfl
